import Mathlib

/-! Formal model of the Telegram currency-rate notifier in src/app.js.

The development embeds, as executable Lean definitions translated from the
JavaScript source: the number parsing and 2-decimal formatting used for the
rate report, the caption construction of the startup and the daily report,
the photo-send with its single text fallback, the port-retry server
bootstrap with its liveness endpoint, the cron tick wrapper, and the
process-level rejection and exception handlers. Finite JavaScript numbers
are idealised as exact rationals; the arithmetic inside the executable
definitions is written with mkRat and integer operations so that concrete
runs reduce, and bridging lemmas relate those operations to the ordinary
rational arithmetic used in the statements. -/

set_option autoImplicit false

/-- Result of the JavaScript parseFloat coercion: not-a-number, a signed
infinity, or a finite value modelled as a rational. -/
inductive JsNum where
  | nan : JsNum
  | inf : Bool → JsNum
  | fin : ℚ → JsNum
deriving DecidableEq

/-- A JSON field reached by optional chaining: absent (undefined), a string,
or a finite JSON number. -/
inductive JsonVal where
  | absent : JsonVal
  | str : String → JsonVal
  | num : ℚ → JsonVal
deriving DecidableEq

def isWhitespaceChar (c : Char) : Bool :=
  c = ' ' || c = '\t' || c = '\n' || c = '\r'

def isDigitChar (c : Char) : Bool :=
  '0' ≤ c && c ≤ '9'

/-- Value of a list of decimal digit characters. -/
def digitsVal (ds : List Char) : ℕ :=
  ds.foldl (fun a c => a * 10 + (c.toNat - 48)) 0

/-- Longest mantissa prefix: digits, optionally a decimal point and more
digits, or a decimal point followed by at least one digit. Returns the
combined digit value, the number of fractional digits, and the unconsumed
remainder; none when no digit is present. -/
def parseMantissa (cs : List Char) : Option (ℕ × ℕ × List Char) :=
  let intDs := cs.takeWhile isDigitChar
  let rest := cs.dropWhile isDigitChar
  if intDs.isEmpty then
    match rest with
    | '.' :: r2 =>
      let fracDs := r2.takeWhile isDigitChar
      if fracDs.isEmpty then none
      else some (digitsVal fracDs, fracDs.length, r2.dropWhile isDigitChar)
    | _ => none
  else
    match rest with
    | '.' :: r2 =>
      let fracDs := r2.takeWhile isDigitChar
      some (digitsVal (intDs ++ fracDs), fracDs.length, r2.dropWhile isDigitChar)
    | _ => some (digitsVal intDs, 0, rest)

/-- Exponent suffix of a decimal literal: e or E, an optional sign, digits.
When the digits are missing the exponent part is not consumed and
contributes zero, as in the JavaScript longest-valid-prefix rule. -/
def parseExpDigits (r : List Char) (neg : Bool) : ℤ :=
  let ds := r.takeWhile isDigitChar
  if ds.isEmpty then 0
  else if neg then -(digitsVal ds : ℤ) else (digitsVal ds : ℤ)

def parseExponent (cs : List Char) : ℤ :=
  match cs with
  | c :: r =>
    if c = 'e' || c = 'E' then
      match r with
      | '+' :: r2 => parseExpDigits r2 false
      | '-' :: r2 => parseExpDigits r2 true
      | _ => parseExpDigits r false
    else 0
  | [] => 0

/-- The rational value of a parsed decimal literal: the signed digit value
scaled down by the fractional length and up or down by the exponent. -/
def decValue (neg : Bool) (digits fracLen : ℕ) (e : ℤ) : ℚ :=
  let sNum : ℤ := if neg then -(digits : ℤ) else (digits : ℤ)
  if 0 ≤ e then mkRat (sNum * ((10 ^ e.toNat : ℕ) : ℤ)) (10 ^ fracLen)
  else mkRat sNum (10 ^ fracLen * 10 ^ (-e).toNat)

/-- Model of JavaScript parseFloat on a string: skip leading whitespace,
read an optional sign, accept an Infinity literal, otherwise parse the
longest decimal-literal prefix; NaN when no numeric prefix exists. -/
def parseFloatStr (s : String) : JsNum :=
  let cs := s.data.dropWhile isWhitespaceChar
  let signNeg : Bool := match cs with | '-' :: _ => true | _ => false
  let cs2 : List Char := match cs with
    | '-' :: r => r
    | '+' :: r => r
    | r => r
  if cs2.take 8 = "Infinity".data then JsNum.inf signNeg
  else
    match parseMantissa cs2 with
    | none => JsNum.nan
    | some (digits, fracLen, rest) =>
      JsNum.fin (decValue signNeg digits fracLen (parseExponent rest))

/-- parseFloat applied to an optionally-chained JSON field, as in
parseFloat(monitors?.bcv?.price): an absent field coerces to the string
"undefined" and yields NaN; a JSON number round-trips to itself. -/
def parseFloatJs : JsonVal → JsNum
  | JsonVal.absent => JsNum.nan
  | JsonVal.str s => parseFloatStr s
  | JsonVal.num q => JsNum.fin q

def jsIsNaN : JsNum → Bool
  | JsNum.nan => true
  | _ => false

def jsIsFinite : JsNum → Bool
  | JsNum.fin _ => true
  | _ => false

/-- Rational addition in executable form; equal to + by ratAdd_eq. -/
def ratAdd (a b : ℚ) : ℚ :=
  mkRat (a.num * (b.den : ℤ) + b.num * (a.den : ℤ)) (a.den * b.den)

/-- Rational halving in executable form; equal to division by two, see
ratDiv2_eq. -/
def ratDiv2 (a : ℚ) : ℚ :=
  mkRat a.num (a.den * 2)

/-- JavaScript addition on parseFloat results. -/
def jsAdd : JsNum → JsNum → JsNum
  | JsNum.nan, _ => JsNum.nan
  | _, JsNum.nan => JsNum.nan
  | JsNum.inf n1, JsNum.inf n2 => if n1 = n2 then JsNum.inf n1 else JsNum.nan
  | JsNum.inf n, JsNum.fin _ => JsNum.inf n
  | JsNum.fin _, JsNum.inf n => JsNum.inf n
  | JsNum.fin a, JsNum.fin b => JsNum.fin (ratAdd a b)

/-- Division by two, as in (bcvNum + paraleloNum) / 2. -/
def jsDiv2 : JsNum → JsNum
  | JsNum.nan => JsNum.nan
  | JsNum.inf n => JsNum.inf n
  | JsNum.fin q => JsNum.fin (ratDiv2 q)

/-- Model of Number.prototype.toFixed(2): print the sign of the value,
then the magnitude scaled by 100 and rounded to the nearest integer with
ties upward, with two decimal places. The integer core equals the
mathematical rounding, see toFixed2_scale_spec. Infinity and NaN print as
their names, as in JavaScript. -/
def toFixed2 : JsNum → String
  | JsNum.nan => "NaN"
  | JsNum.inf neg => if neg then "-Infinity" else "Infinity"
  | JsNum.fin q =>
    let m : ℕ := (q.num.natAbs * 200 + q.den) / (2 * q.den)
    (if q.num < 0 then "-" else "") ++ toString (m / 100) ++ "." ++
      (if m % 100 < 10 then "0" else "") ++ toString (m % 100)

/-- The rate block computed by both report paths from the two monitor
price fields: formatted BCV rate, formatted parallel rate, and formatted
average, produced only when neither parse is NaN (lines 146-153 and
267-274 of src/app.js). -/
def ratesSection (bcvPrice paraleloPrice : JsonVal) :
    Option (String × String × String) :=
  let bcvNum := parseFloatJs bcvPrice
  let paraleloNum := parseFloatJs paraleloPrice
  if !jsIsNaN bcvNum && !jsIsNaN paraleloNum then
    some (toFixed2 bcvNum, toFixed2 paraleloNum,
      toFixed2 (jsDiv2 (jsAdd bcvNum paraleloNum)))
  else
    none

/-- Outcome of the rate-API GET, when attempted: the two optionally-chained
price fields of a received response, or a thrown axios error (network,
timeout, or non-2xx status). -/
inductive FetchResult where
  | ok : JsonVal → JsonVal → FetchResult
  | apiError : FetchResult
deriving DecidableEq

def startupDateStamp (dateVE : String) : String :=
  "🗓️ *Fecha:* " ++ dateVE ++ "\n\n"

def dailyDateStamp (dateTime : String) : String :=
  "🗓️ *Fecha:* " ++ dateTime ++ " (UTC+3)\n\n"

/-- Shared rate-report body template (lines 158-162 and 277-280). -/
def ratesBody (fb fp avg : String) : String :=
  "*Cotización (VEN 🇻🇪)*\n\n*BCV:* " ++ fb ++ " Bs\n*Paralelo:* " ++ fp ++
    " Bs\n*Promedio:* " ++ avg ++ " Bs"

def startupFetchFailBody : String :=
  "⚠️ Error al obtener las tasas.\n\n⚡️ Bot iniciado y listo."

def dailyFetchFailBody : String :=
  "\n\n⚠️ Error al obtener las tasas actuales."

def noRatesStartupBody : String :=
  "⚠️ No se pudieron obtener las tasas actuales.\n\n⚡️ Bot iniciado y listo."

def noRatesDailyAppend : String :=
  "\n\n⚠️ No se pudieron obtener las tasas actuales."

/-- Caption built by the startup report (lines 115-193 of src/app.js),
given the formatted Venezuela date, whether the rate-API URL is
configured, and the fetch outcome when one was attempted. -/
def startupCaption (dateVE : String) (dollarApiUrl : Option String)
    (fetch : FetchResult) : String :=
  match dollarApiUrl with
  | none =>
    (startupDateStamp dateVE ++ "⚡️ Bot iniciado y listo.") ++
      " (URL de API no configurada)"
  | some _ =>
    match fetch with
    | FetchResult.apiError => startupDateStamp dateVE ++ startupFetchFailBody
    | FetchResult.ok bcv par =>
      match ratesSection bcv par with
      | some (fb, fp, avg) => startupDateStamp dateVE ++ ratesBody fb fp avg
      | none => startupDateStamp dateVE ++ noRatesStartupBody

/-- Caption built by the daily report (lines 238-299 of src/app.js). -/
def dailyCaption (dateTime : String) (dollarApiUrl : Option String)
    (fetch : FetchResult) : String :=
  let base := dailyDateStamp dateTime ++ "📊 *Reporte Diario*"
  match dollarApiUrl with
  | none => base ++ "\n\n(URL de API no configurada para tasas)"
  | some _ =>
    match fetch with
    | FetchResult.apiError => base ++ dailyFetchFailBody
    | FetchResult.ok bcv par =>
      match ratesSection bcv par with
      | some (fb, fp, avg) => base ++ ("\n\n" ++ ratesBody fb fp avg)
      | none => base ++ noRatesDailyAppend

/-- A message attempt against the Telegram API: a captioned photo send or
a plain-text send. -/
inductive Attempt where
  | photo : String → Attempt
  | text : String → Attempt
deriving DecidableEq

inductive DeliveryOutcome where
  | success : DeliveryOutcome
  | fallbackSent : DeliveryOutcome
  | totalFailure : DeliveryOutcome
deriving DecidableEq

def startupFallbackBanner : String := "⚠️ *Error al enviar foto de inicio.*"

def dailyFallbackBanner : String :=
  "⚠️ *Error al enviar foto del reporte diario.*"

/-- The send phase shared by both reports (lines 199-223 and 305-322):
one sendPhoto attempt; on failure exactly one sendMessage fallback whose
body is the banner plus the unchanged caption; a fallback failure is only
logged, no further attempt is made. -/
def sendPhotoWithFallback (banner caption : String)
    (photoOk fallbackOk : Bool) : List Attempt × DeliveryOutcome :=
  if photoOk then ([Attempt.photo caption], DeliveryOutcome.success)
  else
    ([Attempt.photo caption, Attempt.text (banner ++ "\n\n" ++ caption)],
      if fallbackOk then DeliveryOutcome.fallbackSent
      else DeliveryOutcome.totalFailure)

/-- Observable result of one report invocation: whether the rate API was
queried, the Telegram attempts made, and the delivery outcome when a send
happened at all. -/
structure RunResult where
  fetchAttempted : Bool
  attempts : List Attempt
  outcome : Option DeliveryOutcome
deriving DecidableEq

/-- The startup report pipeline (lines 104-224 of src/app.js): early
return when no image URL is configured, otherwise build the caption and
send with the fallback policy. -/
def sendTelegramStartupPhotoWithRates (imageUrl dollarApiUrl : Option String)
    (dateVE : String) (fetch : FetchResult) (photoOk fallbackOk : Bool) :
    RunResult :=
  match imageUrl with
  | none => { fetchAttempted := false, attempts := [], outcome := none }
  | some _ =>
    let caption := startupCaption dateVE dollarApiUrl fetch
    let s := sendPhotoWithFallback startupFallbackBanner caption photoOk fallbackOk
    { fetchAttempted := dollarApiUrl.isSome, attempts := s.1, outcome := some s.2 }

/-- The daily report pipeline (lines 228-323 of src/app.js). -/
def sendDailyUpdate (imageUrl dollarApiUrl : Option String)
    (dateTime : String) (fetch : FetchResult) (photoOk fallbackOk : Bool) :
    RunResult :=
  match imageUrl with
  | none => { fetchAttempted := false, attempts := [], outcome := none }
  | some _ =>
    let caption := dailyCaption dateTime dollarApiUrl fetch
    let s := sendPhotoWithFallback dailyFallbackBanner caption photoOk fallbackOk
    { fetchAttempted := dollarApiUrl.isSome, attempts := s.1, outcome := some s.2 }

/-- Arguments of the toLocaleString call that formats a date stamp. -/
structure DateFormatOptions where
  locale : String
  timeZone : String
  day : Option String
  month : Option String
  year : Option String
  hour : Option String
  minute : Option String
  hour12 : Option Bool
deriving DecidableEq

/-- Options of the startup date stamp (lines 119-124 of src/app.js). -/
def startupDateOptions : DateFormatOptions :=
  { locale := "es-VE", timeZone := "America/Caracas", day := some "2-digit",
    month := some "2-digit", year := some "numeric", hour := none,
    minute := none, hour12 := none }

/-- Options of the daily date stamp (lines 243-251 of src/app.js). -/
def dailyDateOptions : DateFormatOptions :=
  { locale := "es-ES", timeZone := "Etc/GMT-3", day := some "2-digit",
    month := some "2-digit", year := some "numeric", hour := some "2-digit",
    minute := some "2-digit", hour12 := some false }

/-- Result of one bind attempt on a port, as seen by the server error and
listening callbacks. -/
inductive BindResult where
  | ok : BindResult
  | eaddrinuse : BindResult
  | otherError : BindResult
deriving DecidableEq

/-- Terminal observation of the bootstrap: a listening socket on a port,
or process.exit(1). -/
inductive BootOutcome where
  | listening : ℕ → BootOutcome
  | exitFail : BootOutcome
deriving DecidableEq

def MAX_PORT_ATTEMPTS : ℕ := 10

/-- The port-retry bootstrap (lines 327-393 of src/app.js): give up with
exit 1 past the attempt cap, retry on the next port on address-in-use,
exit 1 on any other bind error, otherwise enter the listening state. -/
def startServer (env : ℕ → BindResult) (initialPort currentPort : ℕ) :
    BootOutcome :=
  if _h : initialPort + MAX_PORT_ATTEMPTS ≤ currentPort then
    BootOutcome.exitFail
  else
    match env currentPort with
    | BindResult.eaddrinuse => startServer env initialPort (currentPort + 1)
    | BindResult.otherError => BootOutcome.exitFail
    | BindResult.ok => BootOutcome.listening currentPort
termination_by initialPort + MAX_PORT_ATTEMPTS - currentPort
decreasing_by omega

/-- Exit status produced by the bootstrap; none while the server runs. -/
def bootExitCode : BootOutcome → Option ℕ
  | BootOutcome.exitFail => some 1
  | BootOutcome.listening _ => none

/-- The serverInstance global: assigned only inside the listen callback. -/
def bootServerInstance : BootOutcome → Option ℕ
  | BootOutcome.exitFail => none
  | BootOutcome.listening p => some p

/-- The GET / liveness handler (lines 62-67 of src/app.js). -/
def rootResponse (serverInstance : Option ℕ) : String :=
  match serverInstance with
  | some port => "API Telegram Server is running on port " ++ toString port
  | none => "API Telegram Server is running on port unknown"

/-- What one daily tick hands to the scheduler, after the pipeline ran. -/
inductive TickOutcome where
  | success : TickOutcome
  | pipelineError : TickOutcome
deriving DecidableEq

inductive TickResult where
  | delivered : TickResult
  | errorLogged : TickResult
deriving DecidableEq

/-- The cron callback (lines 366-373 of src/app.js): it runs
sendDailyUpdate and attaches a catch handler, so a pipeline failure is
logged and never escapes the trigger boundary. -/
def cronCallback : TickOutcome → TickResult
  | TickOutcome.success => TickResult.delivered
  | TickOutcome.pipelineError => TickResult.errorLogged

/-- The scheduled task: armed while registered, with the trail of tick
results. A tick that threw out of the callback would tear the task down;
the source callback never does. -/
structure CronTask where
  armed : Bool
  results : List TickResult
deriving DecidableEq

def fireTick (t : CronTask) (o : TickOutcome) : CronTask :=
  if t.armed then { armed := true, results := t.results ++ [cronCallback o] }
  else t

/-- Run a sequence of daily ticks against the freshly registered task. -/
def runSchedule (os : List TickOutcome) : CronTask :=
  os.foldl fireTick { armed := true, results := [] }

/-- Observable actions of the process-level handlers. -/
inductive Effect where
  | log : Effect
  | closeServerThenExit : ℕ → Effect
  | scheduleForcedExit : ℕ → ℕ → Effect
  | exitNow : ℕ → Effect
deriving DecidableEq

/-- The shutdown sequence (lines 401-420 of src/app.js): log, close the
socket and exit 0 when one exists with a forced exit 1 after 5000 ms,
otherwise log and exit 0 at once. -/
def shutdown (serverInstance : Option ℕ) : List Effect :=
  match serverInstance with
  | some _ =>
    [Effect.log, Effect.closeServerThenExit 0, Effect.scheduleForcedExit 5000 1]
  | none => [Effect.log, Effect.exitNow 0]

/-- The unhandledRejection handler (lines 426-430): console.error only;
the exit call in the source is commented out. -/
def unhandledRejectionHandler : List Effect := [Effect.log]

/-- The uncaughtException handler (lines 433-439): log, run the shutdown
sequence, and schedule a forced exit 1 after 2000 ms. -/
def uncaughtExceptionHandler (serverInstance : Option ℕ) : List Effect :=
  Effect.log :: shutdown serverInstance ++ [Effect.scheduleForcedExit 2000 1]

/-! ## Bridging and helper lemmas -/

theorem strAppend_assoc (a b c : String) : a ++ b ++ c = a ++ (b ++ c) := by
  cases a with | mk la =>
  cases b with | mk lb =>
  cases c with | mk lc =>
  show String.mk (la ++ lb ++ lc) = String.mk (la ++ (lb ++ lc))
  rw [List.append_assoc]

theorem mkRat_eq_div' (n : ℤ) (d : ℕ) : mkRat n d = (n : ℚ) / (d : ℚ) := by
  rw [Rat.mkRat_eq_divInt, Rat.divInt_eq_div]
  push_cast
  rfl

theorem ratAdd_eq (a b : ℚ) : ratAdd a b = a + b := by
  have ha : ((a.den : ℚ)) ≠ 0 := by exact_mod_cast a.den_ne_zero
  have hb : ((b.den : ℚ)) ≠ 0 := by exact_mod_cast b.den_ne_zero
  rw [ratAdd, mkRat_eq_div']
  push_cast
  conv_rhs => rw [← Rat.num_div_den a, ← Rat.num_div_den b]
  field_simp

theorem ratDiv2_eq (a : ℚ) : ratDiv2 a = a / 2 := by
  have ha : ((a.den : ℚ)) ≠ 0 := by exact_mod_cast a.den_ne_zero
  rw [ratDiv2, mkRat_eq_div']
  push_cast
  conv_rhs => rw [← Rat.num_div_den a]
  field_simp

theorem toFixed2_scale_spec (q : ℚ) :
    ((q.num.natAbs * 200 + q.den) / (2 * q.den) : ℕ) =
      (⌊|q| * 100 + 1 / 2⌋).toNat := by
  have hd0 : (0 : ℚ) < (q.den : ℚ) := by exact_mod_cast q.den_pos
  have habs : |q| = (q.num.natAbs : ℚ) / (q.den : ℚ) := by
    conv_lhs => rw [← Rat.num_div_den q]
    rw [abs_div, Int.cast_natAbs, Int.cast_abs, abs_of_pos hd0]
  have key : |q| * 100 + 1 / 2 =
      ((q.num.natAbs * 200 + q.den : ℕ) : ℚ) / ((2 * q.den : ℕ) : ℚ) := by
    rw [habs]
    have hne : ((q.den : ℚ)) ≠ 0 := hd0.ne'
    push_cast
    field_simp
    ring
  rw [key, Rat.floor_natCast_div_natCast, ← Int.natCast_div, Int.toNat_natCast]

theorem startServer_seek (env : ℕ → BindResult) (base : ℕ) :
    ∀ (k c : ℕ), c + k < base + MAX_PORT_ATTEMPTS →
      env (c + k) = BindResult.ok →
      (∀ j, j < k → env (c + j) = BindResult.eaddrinuse) →
      startServer env base c = BootOutcome.listening (c + k) := by
  intro k
  induction k with
  | zero =>
    intro c hlt hok _
    unfold startServer
    have hnot : ¬ base + MAX_PORT_ATTEMPTS ≤ c := by omega
    have hok' : env c = BindResult.ok := by simpa using hok
    simp [hnot, hok']
  | succ k ih =>
    intro c hlt hok hbusy
    unfold startServer
    have hnot : ¬ base + MAX_PORT_ATTEMPTS ≤ c := by omega
    have hc : env c = BindResult.eaddrinuse := by
      simpa using hbusy 0 (Nat.succ_pos k)
    have h2 : env (c + 1 + k) = BindResult.ok := by
      have he : c + 1 + k = c + (k + 1) := by omega
      rw [he]; exact hok
    have h3 : ∀ j, j < k → env (c + 1 + j) = BindResult.eaddrinuse := by
      intro j hj
      have he : c + 1 + j = c + (j + 1) := by omega
      rw [he]; exact hbusy (j + 1) (by omega)
    have hrec := ih (c + 1) (by omega) h2 h3
    have he : c + 1 + k = c + (k + 1) := by omega
    rw [he] at hrec
    simp [hnot, hc, hrec]

theorem startServer_seek_fail (env : ℕ → BindResult) (base : ℕ) :
    ∀ (k c : ℕ), base + MAX_PORT_ATTEMPTS ≤ c + k →
      (∀ j, j < k → env (c + j) = BindResult.eaddrinuse) →
      startServer env base c = BootOutcome.exitFail := by
  intro k
  induction k with
  | zero =>
    intro c hle _
    unfold startServer
    simp [show base + MAX_PORT_ATTEMPTS ≤ c by omega]
  | succ k ih =>
    intro c hle hbusy
    by_cases hcap : base + MAX_PORT_ATTEMPTS ≤ c
    · unfold startServer
      simp [hcap]
    · unfold startServer
      have hc : env c = BindResult.eaddrinuse := by
        simpa using hbusy 0 (Nat.succ_pos k)
      have h3 : ∀ j, j < k → env (c + 1 + j) = BindResult.eaddrinuse := by
        intro j hj
        have he : c + 1 + j = c + (j + 1) := by omega
        rw [he]; exact hbusy (j + 1) (by omega)
      have hrec := ih (c + 1) (by omega) h3
      simp [hcap, hc, hrec]

theorem startServer_seek_err (env : ℕ → BindResult) (base : ℕ) :
    ∀ (k c : ℕ), c + k < base + MAX_PORT_ATTEMPTS →
      env (c + k) = BindResult.otherError →
      (∀ j, j < k → env (c + j) = BindResult.eaddrinuse) →
      startServer env base c = BootOutcome.exitFail := by
  intro k
  induction k with
  | zero =>
    intro c hlt herr _
    unfold startServer
    have hnot : ¬ base + MAX_PORT_ATTEMPTS ≤ c := by omega
    have herr' : env c = BindResult.otherError := by simpa using herr
    simp [hnot, herr']
  | succ k ih =>
    intro c hlt herr hbusy
    unfold startServer
    have hnot : ¬ base + MAX_PORT_ATTEMPTS ≤ c := by omega
    have hc : env c = BindResult.eaddrinuse := by
      simpa using hbusy 0 (Nat.succ_pos k)
    have h2 : env (c + 1 + k) = BindResult.otherError := by
      have he : c + 1 + k = c + (k + 1) := by omega
      rw [he]; exact herr
    have h3 : ∀ j, j < k → env (c + 1 + j) = BindResult.eaddrinuse := by
      intro j hj
      have he : c + 1 + j = c + (j + 1) := by omega
      rw [he]; exact hbusy (j + 1) (by omega)
    have hrec := ih (c + 1) (by omega) h2 h3
    simp [hnot, hc, hrec]

theorem runSchedule_go (os : List TickOutcome) (acc : List TickResult) :
    os.foldl fireTick { armed := true, results := acc } =
      { armed := true, results := acc ++ os.map cronCallback } := by
  induction os generalizing acc with
  | nil => simp
  | cons o os ih =>
    simp [List.foldl, fireTick, ih]

/-! ## Claims -/

/-- C1 (amended): for every API response whose two monitor price fields
both parse as finite numbers, the pipeline computes the average as
(primaryRate + secondaryRate) / 2 and renders both rates and the average
rounded to 2 decimal places into the startup and the daily caption, and
primary 36.50 with secondary 40.00 yields average 38.25; the average
branch is taken exactly when both rates parse as non-NaN numbers, which
admits the non-finite value Infinity. -/
theorem c1_average_and_branch (dateVE t url : String) (b p : JsonVal)
    (qb qp : ℚ)
    (hb : parseFloatJs b = JsNum.fin qb) (hp : parseFloatJs p = JsNum.fin qp) :
    ratesSection b p =
      some (toFixed2 (JsNum.fin qb), toFixed2 (JsNum.fin qp),
        toFixed2 (JsNum.fin ((qb + qp) / 2))) ∧
    startupCaption dateVE (some url) (FetchResult.ok b p) =
      startupDateStamp dateVE ++
        ratesBody (toFixed2 (JsNum.fin qb)) (toFixed2 (JsNum.fin qp))
          (toFixed2 (JsNum.fin ((qb + qp) / 2))) ∧
    dailyCaption t (some url) (FetchResult.ok b p) =
      (dailyDateStamp t ++ "📊 *Reporte Diario*") ++
        ("\n\n" ++ ratesBody (toFixed2 (JsNum.fin qb)) (toFixed2 (JsNum.fin qp))
          (toFixed2 (JsNum.fin ((qb + qp) / 2)))) ∧
    ratesSection (JsonVal.str "36.50") (JsonVal.str "40.00") =
      some ("36.50", "40.00", "38.25") ∧
    (∀ b' p' : JsonVal,
      (ratesSection b' p').isSome =
        (!jsIsNaN (parseFloatJs b') && !jsIsNaN (parseFloatJs p'))) := by
  have hsec : ratesSection b p =
      some (toFixed2 (JsNum.fin qb), toFixed2 (JsNum.fin qp),
        toFixed2 (JsNum.fin ((qb + qp) / 2))) := by
    simp [ratesSection, hb, hp, jsIsNaN, jsAdd, jsDiv2, ratAdd_eq, ratDiv2_eq]
  refine ⟨hsec, ?_, ?_, by decide, ?_⟩
  · simp [startupCaption, hsec]
  · simp [dailyCaption, hsec]
  · intro b' p'
    cases hb' : parseFloatJs b' <;> cases hp' : parseFloatJs p' <;>
      simp [ratesSection, hb', hp', jsIsNaN]

/-- C1 witness: the hypotheses and the average equation at the concrete
example pair 36.50 and 40.00. -/
theorem c1_witness :
    parseFloatJs (JsonVal.str "36.50") = JsNum.fin (mkRat 73 2) ∧
    parseFloatJs (JsonVal.str "40.00") = JsNum.fin (mkRat 40 1) ∧
    ratesSection (JsonVal.str "36.50") (JsonVal.str "40.00") =
      some (toFixed2 (JsNum.fin (mkRat 73 2)), toFixed2 (JsNum.fin (mkRat 40 1)),
        toFixed2 (JsNum.fin ((mkRat 73 2 + mkRat 40 1) / 2))) :=
  ⟨by decide, by decide,
    (c1_average_and_branch "d" "t" "u" (JsonVal.str "36.50")
      (JsonVal.str "40.00") (mkRat 73 2) (mkRat 40 1) (by decide) (by decide)).1⟩

/-- C1 counterexample: the price string Infinity does not parse as a
finite number, yet the average branch is taken and renders Infinity, so
the branch is not taken only on finite parses. -/
theorem c1_counterexample :
    jsIsFinite (parseFloatStr "Infinity") = false ∧
    jsIsNaN (parseFloatStr "Infinity") = false ∧
    ratesSection (JsonVal.str "Infinity") (JsonVal.str "40.00") =
      some ("Infinity", "40.00", "Infinity") := by
  refine ⟨by decide, by decide, by decide⟩

/-- C2: when the base port is occupied and the next free port lies within
the attempt cap, the bootstrap retries upward, binds exactly the first
free port, records it as the server instance, and the root endpoint names
exactly that port. -/
theorem c2_port_retry (env : ℕ → BindResult) (base k : ℕ)
    (_hk0 : 0 < k) (hk : k < MAX_PORT_ATTEMPTS)
    (hok : env (base + k) = BindResult.ok)
    (hbusy : ∀ j, j < k → env (base + j) = BindResult.eaddrinuse) :
    startServer env base base = BootOutcome.listening (base + k) ∧
    bootServerInstance (startServer env base base) = some (base + k) ∧
    rootResponse (bootServerInstance (startServer env base base)) =
      "API Telegram Server is running on port " ++ toString (base + k) := by
  have h := startServer_seek env base k base (by omega) hok hbusy
  refine ⟨h, ?_, ?_⟩
  · simp [h, bootServerInstance]
  · simp [h, bootServerInstance, rootResponse]

/-- C2 witness: base port 10000 occupied, port 10001 free. -/
theorem c2_witness :
    (0 < 1 ∧ 1 < MAX_PORT_ATTEMPTS ∧
      (fun q => if q = 10001 then BindResult.ok else BindResult.eaddrinuse)
          (10000 + 1) = BindResult.ok ∧
      (∀ j, j < 1 →
        (fun q => if q = 10001 then BindResult.ok else BindResult.eaddrinuse)
          (10000 + j) = BindResult.eaddrinuse)) ∧
    startServer
        (fun q => if q = 10001 then BindResult.ok else BindResult.eaddrinuse)
        10000 10000 = BootOutcome.listening (10000 + 1) := by
  refine ⟨⟨by decide, by decide, by decide, by decide⟩, ?_⟩
  exact (c2_port_retry
    (fun q => if q = 10001 then BindResult.ok else BindResult.eaddrinuse)
    10000 1 (by decide) (by decide) (by decide) (by decide)).1

/-- C3: when the photo send fails, exactly one fallback text send is
attempted, carrying the unchanged caption prefixed by the error banner;
when the fallback fails too the outcome is a logged total failure and the
attempt list still contains no further send, on both report paths. -/
theorem c3_fallback (caption img : String) (du : Option String)
    (dVE dD : String) (f : FetchResult) (fOk : Bool) :
    (sendPhotoWithFallback startupFallbackBanner caption false fOk).1 =
      [Attempt.photo caption,
        Attempt.text (startupFallbackBanner ++ "\n\n" ++ caption)] ∧
    (sendPhotoWithFallback dailyFallbackBanner caption false fOk).1 =
      [Attempt.photo caption,
        Attempt.text (dailyFallbackBanner ++ "\n\n" ++ caption)] ∧
    (sendPhotoWithFallback startupFallbackBanner caption false false).2 =
      DeliveryOutcome.totalFailure ∧
    (sendPhotoWithFallback dailyFallbackBanner caption false false).2 =
      DeliveryOutcome.totalFailure ∧
    (sendPhotoWithFallback startupFallbackBanner caption true fOk).1 =
      [Attempt.photo caption] ∧
    (sendTelegramStartupPhotoWithRates (some img) du dVE f false fOk).attempts =
      [Attempt.photo (startupCaption dVE du f),
        Attempt.text (startupFallbackBanner ++ "\n\n" ++ startupCaption dVE du f)] ∧
    (sendDailyUpdate (some img) du dD f false fOk).attempts =
      [Attempt.photo (dailyCaption dD du f),
        Attempt.text (dailyFallbackBanner ++ "\n\n" ++ dailyCaption dD du f)] :=
  ⟨rfl, rfl, rfl, rfl, rfl, rfl, rfl⟩

/-- C4: when either monitor price field is missing or does not parse as a
number, the rate block is not produced, both captions are the fixed
rates-unavailable bodies containing no rendered rate, the construction is
total, and a missing field indeed parses to NaN. -/
theorem c4_invalid_rates (dateVE t url : String) (b p : JsonVal)
    (h : jsIsNaN (parseFloatJs b) = true ∨ jsIsNaN (parseFloatJs p) = true) :
    ratesSection b p = none ∧
    startupCaption dateVE (some url) (FetchResult.ok b p) =
      startupDateStamp dateVE ++ noRatesStartupBody ∧
    dailyCaption t (some url) (FetchResult.ok b p) =
      (dailyDateStamp t ++ "📊 *Reporte Diario*") ++ noRatesDailyAppend ∧
    parseFloatJs JsonVal.absent = JsNum.nan := by
  have hsec : ratesSection b p = none := by
    rcases h with h | h <;> simp [ratesSection, h]
  exact ⟨hsec, by simp [startupCaption, hsec], by simp [dailyCaption, hsec], rfl⟩

/-- C4 witness: a missing BCV field with a valid parallel field yields
the startup rates-unavailable caption. -/
theorem c4_witness :
    (jsIsNaN (parseFloatJs JsonVal.absent) = true ∨
      jsIsNaN (parseFloatJs (JsonVal.str "40.00")) = true) ∧
    startupCaption "01/01/2025" (some "https://api")
        (FetchResult.ok JsonVal.absent (JsonVal.str "40.00")) =
      startupDateStamp "01/01/2025" ++ noRatesStartupBody :=
  ⟨Or.inl rfl,
    (c4_invalid_rates "01/01/2025" "t" "https://api" JsonVal.absent
      (JsonVal.str "40.00") (Or.inl rfl)).2.1⟩

/-- C5: with the rate-API URL unconfigured neither pipeline attempts the
rate fetch, for any image URL, and both produced captions carry the
unconfigured notice. -/
theorem c5_unconfigured_api (imageUrl : Option String) (dateVE t : String)
    (f : FetchResult) (pOk fOk : Bool) :
    (sendTelegramStartupPhotoWithRates imageUrl none dateVE f pOk fOk).fetchAttempted
        = false ∧
    (sendDailyUpdate imageUrl none t f pOk fOk).fetchAttempted = false ∧
    (∃ a, startupCaption dateVE none f = a ++ " (URL de API no configurada)") ∧
    (∃ a, dailyCaption t none f =
      a ++ "\n\n(URL de API no configurada para tasas)") := by
  refine ⟨?_, ?_,
    ⟨startupDateStamp dateVE ++ "⚡️ Bot iniciado y listo.", rfl⟩,
    ⟨dailyDateStamp t ++ "📊 *Reporte Diario*", rfl⟩⟩
  · cases imageUrl <;> rfl
  · cases imageUrl <;> rfl

/-- C6: when every port from the base through the attempt cap is in use
the bootstrap exits with status 1 and no server instance remains, and a
bind failure with any other error code on any attempt is likewise fatal
with status 1 and no bound socket. -/
theorem c6_port_exhaustion (env : ℕ → BindResult) (base : ℕ) :
    ((∀ j, j < MAX_PORT_ATTEMPTS → env (base + j) = BindResult.eaddrinuse) →
      bootExitCode (startServer env base base) = some 1 ∧
      bootServerInstance (startServer env base base) = none) ∧
    (∀ k, k < MAX_PORT_ATTEMPTS →
      env (base + k) = BindResult.otherError →
      (∀ j, j < k → env (base + j) = BindResult.eaddrinuse) →
      bootExitCode (startServer env base base) = some 1 ∧
      bootServerInstance (startServer env base base) = none) := by
  constructor
  · intro hbusy
    have h := startServer_seek_fail env base MAX_PORT_ATTEMPTS base
      (by omega) hbusy
    rw [h]; exact ⟨rfl, rfl⟩
  · intro k hk herr hbusy
    have h := startServer_seek_err env base k base (by omega) herr hbusy
    rw [h]; exact ⟨rfl, rfl⟩

/-- C6 witness: every port in use from base 10000 yields exit status 1
and no bound socket. -/
theorem c6_witness :
    (∀ j, j < MAX_PORT_ATTEMPTS →
      (fun _ => BindResult.eaddrinuse) (10000 + j) = BindResult.eaddrinuse) ∧
    bootExitCode (startServer (fun _ => BindResult.eaddrinuse) 10000 10000) =
      some 1 ∧
    bootServerInstance (startServer (fun _ => BindResult.eaddrinuse) 10000 10000)
      = none := by
  refine ⟨fun j hj => rfl, ?_, ?_⟩
  · exact ((c6_port_exhaustion (fun _ => BindResult.eaddrinuse) 10000).1
      (fun j hj => rfl)).1
  · exact ((c6_port_exhaustion (fun _ => BindResult.eaddrinuse) 10000).1
      (fun j hj => rfl)).2

/-- C7: for every sequence of daily ticks the task stays armed, every
tick fires and yields exactly its callback result, a pipeline failure in
one tick is logged and leaves all later ticks unaffected, and a
subsequent successful tick delivers. -/
theorem c7_cron_resilience (os pre post : List TickOutcome) :
    (runSchedule os).armed = true ∧
    (runSchedule os).results = os.map cronCallback ∧
    runSchedule (pre ++ TickOutcome.pipelineError :: post) =
      { armed := true,
        results := pre.map cronCallback ++
          TickResult.errorLogged :: post.map cronCallback } ∧
    cronCallback TickOutcome.pipelineError = TickResult.errorLogged ∧
    cronCallback TickOutcome.success = TickResult.delivered := by
  refine ⟨?_, ?_, ?_, rfl, rfl⟩
  · simp [runSchedule, runSchedule_go]
  · simp [runSchedule, runSchedule_go]
  · simp only [runSchedule, runSchedule_go]
    simp [cronCallback]

/-- C8 counterexample: the unhandled-rejection handler only logs; it
performs no socket close, schedules no forced exit and exits nowhere, and
its actions differ from the uncaught-exception handler, so an unhandled
rejection does not drive the shutdown sequence. -/
theorem c8_counterexample :
    unhandledRejectionHandler = [Effect.log] ∧
    Effect.closeServerThenExit 0 ∉ unhandledRejectionHandler ∧
    Effect.scheduleForcedExit 5000 1 ∉ unhandledRejectionHandler ∧
    Effect.scheduleForcedExit 2000 1 ∉ unhandledRejectionHandler ∧
    Effect.exitNow 1 ∉ unhandledRejectionHandler ∧
    unhandledRejectionHandler ≠ uncaughtExceptionHandler (some 10000) := by
  refine ⟨rfl, ?_, ?_, ?_, ?_, ?_⟩ <;> decide

/-- C8 (amended): an uncaught exception is logged and drives the
emergency shutdown sequence, closing the listening socket with a forced
exit 1 after the 5000 ms close timeout plus a 2000 ms safety forced exit;
an unhandled promise rejection is only logged and triggers no shutdown. -/
theorem c8_handlers (p : ℕ) :
    uncaughtExceptionHandler (some p) =
      [Effect.log, Effect.log, Effect.closeServerThenExit 0,
        Effect.scheduleForcedExit 5000 1, Effect.scheduleForcedExit 2000 1] ∧
    uncaughtExceptionHandler none =
      [Effect.log, Effect.log, Effect.exitNow 0,
        Effect.scheduleForcedExit 2000 1] ∧
    unhandledRejectionHandler = [Effect.log] :=
  ⟨rfl, rfl, rfl⟩

/-- C9: every startup caption begins with the Venezuela-timezone date-only
stamp and every daily caption begins with the UTC+3 date-and-time stamp;
the startup format options use the America/Caracas timezone with no time
fields while the daily ones use Etc/GMT-3 with hour and minute; and the
fetch-failure notices of the two report kinds are distinct. -/
theorem c9_localized_stamps (dateVE t : String) (du : Option String)
    (f : FetchResult) :
    (∃ r, startupCaption dateVE du f = startupDateStamp dateVE ++ r) ∧
    (∃ r, dailyCaption t du f = dailyDateStamp t ++ r) ∧
    startupDateStamp dateVE = "🗓️ *Fecha:* " ++ dateVE ++ "\n\n" ∧
    dailyDateStamp t = "🗓️ *Fecha:* " ++ t ++ " (UTC+3)\n\n" ∧
    startupDateOptions.timeZone = "America/Caracas" ∧
    startupDateOptions.hour = none ∧
    startupDateOptions.minute = none ∧
    dailyDateOptions.timeZone = "Etc/GMT-3" ∧
    dailyDateOptions.hour = some "2-digit" ∧
    dailyDateOptions.minute = some "2-digit" ∧
    (∀ u, startupCaption dateVE (some u) FetchResult.apiError =
      startupDateStamp dateVE ++ startupFetchFailBody) ∧
    (∀ u, dailyCaption t (some u) FetchResult.apiError =
      (dailyDateStamp t ++ "📊 *Reporte Diario*") ++ dailyFetchFailBody) ∧
    startupFetchFailBody ≠ dailyFetchFailBody := by
  refine ⟨?_, ?_, rfl, rfl, rfl, rfl, rfl, rfl, rfl, rfl,
    fun u => rfl, fun u => rfl, by decide⟩
  · cases du with
    | none =>
      exact ⟨"⚡️ Bot iniciado y listo." ++ " (URL de API no configurada)",
        strAppend_assoc (startupDateStamp dateVE) "⚡️ Bot iniciado y listo."
          " (URL de API no configurada)"⟩
    | some u =>
      cases f with
      | apiError => exact ⟨startupFetchFailBody, rfl⟩
      | ok b p =>
        cases hr : ratesSection b p with
        | none => exact ⟨noRatesStartupBody, by simp [startupCaption, hr]⟩
        | some v =>
          obtain ⟨fb, fp, avg⟩ := v
          exact ⟨ratesBody fb fp avg, by simp [startupCaption, hr]⟩
  · cases du with
    | none =>
      exact ⟨"📊 *Reporte Diario*" ++ "\n\n(URL de API no configurada para tasas)",
        strAppend_assoc (dailyDateStamp t) "📊 *Reporte Diario*"
          "\n\n(URL de API no configurada para tasas)"⟩
    | some u =>
      cases f with
      | apiError =>
        exact ⟨"📊 *Reporte Diario*" ++ dailyFetchFailBody,
          strAppend_assoc (dailyDateStamp t) "📊 *Reporte Diario*"
            dailyFetchFailBody⟩
      | ok b p =>
        cases hr : ratesSection b p with
        | none =>
          exact ⟨"📊 *Reporte Diario*" ++ noRatesDailyAppend,
            by simp [dailyCaption, hr, strAppend_assoc]⟩
        | some v =>
          obtain ⟨fb, fp, avg⟩ := v
          exact ⟨"📊 *Reporte Diario*" ++ ("\n\n" ++ ratesBody fb fp avg),
            by simp [dailyCaption, hr, strAppend_assoc]⟩

/-- C10: with the image URL unconfigured both pipelines return before any
work: the rate API is not queried and no photo or text attempt is made. -/
theorem c10_no_image_early_return (du : Option String) (d1 d2 : String)
    (f : FetchResult) (pOk fOk : Bool) :
    sendTelegramStartupPhotoWithRates none du d1 f pOk fOk =
      { fetchAttempted := false, attempts := [], outcome := none } ∧
    sendDailyUpdate none du d2 f pOk fOk =
      { fetchAttempted := false, attempts := [], outcome := none } :=
  ⟨rfl, rfl⟩
